import Mathlib

/-!
Shallow embedding of the agents-lab multi-agent system core, translated from
the Python sources under `src/`:

* `src/agents/agent.py`      — conversation store, summarization, scratchpad loop
* `src/agents/prompts.py`    — structured-action validators
* `src/main.py`              — orchestration loop dispatch
* `src/models/lmstudio.py`   — backend model pool client
* `src/agents/tools/tool_executer.py`, `src/agents/tools/file_tools.py` — tools

Conventions of the embedding:
* Python JSON-ish values are modelled by `JVal`; dicts by insertion-ordered
  association lists (`Dict`).  Python `Enum` members (`PromptType.X`) are the
  `jenum` constructor: a plain-`Enum` member is *not* equal to its string value.
* Python floats in the summarization/threshold arithmetic are modelled by
  exact rationals (`ℚ`); the claims under study do not hinge on IEEE rounding.
* External collaborators (the LLM backend, `json.loads`, `difflib`,
  `int()`/`float()` parsing, the filesystem, importlib) are oracle parameters.
* Exceptions are modelled by `Except`/`Option` results.
-/

/-- A Python value as it appears in the parsed JSON dicts of the program.
`jenum` models a plain-`Enum` member (e.g. `PromptType.NORMAL_RESPONSE`),
which in Python is distinct from (and `==`-unequal to) its string `.value`. -/
inductive JVal where
  | jstr (s : String)
  | jint (n : Int)
  | jbool (b : Bool)
  | jobj (fields : List (String × JVal))
  | jenum (member : String)
  | jnull
deriving Repr

/-- A Python dict with string keys, as an insertion-ordered association list. -/
abbrev Dict := List (String × JVal)

/-- Dict lookup: `d[k]` / `d.get(k)` returning `none` when the key is absent. -/
def jlookup (d : Dict) (k : String) : Option JVal :=
  List.lookup k d

/-- `d.get(k, default)`. -/
def jgetD (d : Dict) (k : String) (default : JVal) : JVal :=
  (jlookup d k).getD default

/-- Python `v == s` for a string literal `s`: true only when `v` is a `str`
with the same content.  An `Enum` member, int, bool, dict or `None` compared
against a string is `False` in Python. -/
def pyEqStr (v : JVal) (s : String) : Bool :=
  match v with
  | .jstr t => t == s
  | _ => false

/-- Python `v == s` where `v` may be absent (`dict.get` returned `None`). -/
def pyEqStrOpt (v : Option JVal) (s : String) : Bool :=
  match v with
  | some w => pyEqStr w s
  | none => false

/-- Python truthiness of a value (`if v:`). -/
def pyTruthy (v : JVal) : Bool :=
  match v with
  | .jstr s => !s.isEmpty
  | .jint n => n != 0
  | .jbool b => b
  | .jobj l => !l.isEmpty
  | .jenum _ => true
  | .jnull => false

/-!
## Conversation store and summarization (`Agent` in `src/agents/agent.py`)

A chat-history message.  The history entries in the source are Python dicts
`{"role", "content", "timestamp", "metadata" | "type"}`; `get_context_usage`
measures `len(str(message))`, which depends on a runtime timestamp, so the
repr length is carried as the abstract field `pyLen` (none of the verified
claims depend on its exact value).
-/
structure Message where
  role : String
  content : String
  tag : Option String
  pyLen : Nat
deriving Repr, DecidableEq

/-- `SummarizationConfig` from `src/models/bases.py`. -/
structure SummCfg where
  summarization_threshold : ℚ
  char_to_token : Nat
  percentage_to_summarize : ℚ
deriving Repr

/-- The per-agent data `get_context_usage` reads besides the chat history:
the system prompt length, the `len(str(m))` of each seed prompt, the
summarization config and the model's context length. -/
structure AgentCtx where
  system_prompt_len : Nat
  seed_lens : List Nat
  cfg : SummCfg
  context_length : Nat
deriving Repr

/-- `Agent.get_context_usage`: estimated tokens and usage percentage.
`total_chars // char_to_token_ratio` is Python floor division on
non-negative ints, i.e. `Nat` division. -/
def get_context_usage (a : AgentCtx) (hist : List Message) : Nat × ℚ :=
  let totalChars := a.system_prompt_len + a.seed_lens.sum + (hist.map Message.pyLen).sum
  let estimatedTokens := totalChars / a.cfg.char_to_token
  (estimatedTokens, (estimatedTokens : ℚ) / (a.context_length : ℚ) * 100)

/-- `Agent.should_summarize_history`. -/
def should_summarize_history (a : AgentCtx) (hist : List Message) : Bool :=
  (get_context_usage a hist).2 ≥ a.cfg.summarization_threshold * 100

/-- Approximate overhead of the dict repr around role/content (braces, key
names, timestamp digits); the claims never depend on this constant. -/
def msgReprOverhead : Nat := 64

/-- The synthetic summary message built by `summarize_history`. -/
def mkSummaryMessage (summaryResponse : String) : Message :=
  let content := "[CONVERSATION SUMMARY]: " ++ summaryResponse
  { role := "system", content := content, tag := some "summary",
    pyLen := content.length + msgReprOverhead }

/-- The count `int(len(self.chat_history) * percentage_to_summarize)`:
float multiplication modelled exactly, `int()` truncation toward zero
(for the non-negative fractions used here, the floor). -/
def retainedCount (a : AgentCtx) (hist : List Message) : Nat :=
  (⌊(hist.length : ℚ) * a.cfg.percentage_to_summarize⌋).toNat

/-- Python `hist[-k:]`: for `k = 0` the whole list, for `k ≥ 1` the last
`k` elements (everything when `k ≥ len`). -/
def pySliceLast (hist : List Message) (k : Nat) : List Message :=
  if k = 0 then hist else hist.drop (hist.length - k)

/-- Python `hist[:-k]`: empty for `k = 0` (`[:0]`) and for `k ≥ len`;
otherwise the first `len - k` elements. -/
def pySliceInit (hist : List Message) (k : Nat) : List Message :=
  if k = 0 then [] else hist.take (hist.length - k)

/-- `Agent.summarize_history`, as a function of the chat history.  The
backend summary text (obtained through `call_llm(..., add_to_history=False)`)
is the oracle argument `summaryResponse`.  Returns the new chat history. -/
def summarize_history (a : AgentCtx) (hist : List Message)
    (summaryResponse : String) : List Message :=
  if (get_context_usage a hist).2 < a.cfg.percentage_to_summarize * 100 then
    hist
  else
    let k := retainedCount a hist
    let recent_messages := pySliceLast hist k
    let messages_to_summarize := pySliceInit hist k
    if messages_to_summarize.isEmpty then
      hist
    else
      mkSummaryMessage summaryResponse :: recent_messages

/-- `Agent._add_to_history`: append the message, then summarize when the
summarization threshold is reached. -/
def add_to_history (a : AgentCtx) (hist : List Message) (role content : String)
    (summaryResponse : String) : List Message :=
  let message : Message :=
    { role := role, content := content, tag := none,
      pyLen := role.length + content.length + msgReprOverhead }
  let hist' := hist ++ [message]
  if should_summarize_history a hist' then
    summarize_history a hist' summaryResponse
  else
    hist'

/-- The effect of `Agent.call_llm(prompt, add_to_history)` on the agent's
`chat_history`.  When `add_to_history` is true the original prompt and the
cleaned-up response are appended (each append may trigger summarization);
when it is false the history is untouched — no other statement of
`call_llm` mutates `chat_history`. -/
def call_llm_history_effect (a : AgentCtx) (hist : List Message)
    (prompt cleanedResponse : String) (addToHistory : Bool)
    (summaryResponse : String) : List Message :=
  if addToHistory then
    add_to_history a (add_to_history a hist "user" prompt summaryResponse)
      "assistant" cleanedResponse summaryResponse
  else
    hist

/-!
## Structured-action validators (`src/agents/prompts.py`)

Each `*_prompt` class constructor runs `_validate` on the given record and
stores the record itself as `_parsed_data` (every field property then reads
back the original value).  Validation failures raise
`InvalidTaskStructureError`, modelled as `Except.error` with the message.
-/

/-- The `for field in required_fields` loop shared by the delegation, tool
and tool-return validators: each field must be present and a `str`. -/
def checkStrFields (d : Dict) : List String → Option String
  | [] => none
  | f :: rest =>
    match jlookup d f with
    | none => some ("Missing required field: " ++ f)
    | some (.jstr _) => checkStrFields d rest
    | some _ => some ("Field " ++ f ++ " must be a string")

/-- The `for field in required_fields` loop of `refinement_response_prompt`,
which checks presence only. -/
def checkFieldsPresent (d : Dict) : List String → Option String
  | [] => none
  | f :: rest =>
    match jlookup d f with
    | none => some ("Missing required field: " ++ f)
    | some _ => checkFieldsPresent d rest

/-- Is the looked-up value a present string? -/
def isStrField (v : Option JVal) : Bool :=
  match v with
  | some (.jstr _) => true
  | _ => false

/-- Is the looked-up value a present bool?  (`isinstance(x, bool)`.) -/
def isBoolField (v : Option JVal) : Bool :=
  match v with
  | some (.jbool _) => true
  | _ => false

/-- `data["success"] not in ["True", "False"]`, negated. -/
def successLiteralOK (v : Option JVal) : Bool :=
  pyEqStrOpt v "True" || pyEqStrOpt v "False"

/-- `delegation_prompt._validate`. -/
def delegation_validate (d : Dict) : Except String Dict :=
  match checkStrFields d ["action", "agent", "caller_agent", "reason", "user_input"] with
  | some e => .error e
  | none =>
    if pyEqStrOpt (jlookup d "action") "DELEGATE_TASK" then .ok d
    else .error "Action must be DELEGATE_TASK"

/-- `delegation_back_prompt._validate`. -/
def delegation_back_validate (d : Dict) : Except String Dict :=
  match checkStrFields d ["action", "return_to_agent", "return_from_agent", "reason", "success"] with
  | some e => .error e
  | none =>
    if pyEqStrOpt (jlookup d "action") "DELEGATE_BACK" then
      if successLiteralOK (jlookup d "success") then .ok d
      else .error "Success field must be True or False"
    else .error "Action must be DELEGATE_BACK"

/-- `tools_prompt._validate`. -/
def tools_validate (d : Dict) : Except String Dict :=
  match checkStrFields d ["action", "tool", "args"] with
  | some e => .error e
  | none =>
    if pyEqStrOpt (jlookup d "action") "USE_TOOL" then .ok d
    else .error "Action must be USE_TOOL"

/-- `tool_return_prompt._validate`. -/
def tool_return_validate (d : Dict) : Except String Dict :=
  match checkStrFields d ["action", "tool", "result", "success"] with
  | some e => .error e
  | none =>
    if pyEqStrOpt (jlookup d "action") "TOOL_RETURN" then
      if successLiteralOK (jlookup d "success") then .ok d
      else .error "Success field must be True or False"
    else .error "Action must be TOOL_RETURN"

/-- `data["done"] not in ["yes", "no"]`, negated. -/
def doneLiteralOK (v : Option JVal) : Bool :=
  pyEqStrOpt v "yes" || pyEqStrOpt v "no"

/-- `isinstance(data["score"], int) and 0 <= score <= 100`.  In Python,
`bool` is a subclass of `int`, so a boolean score passes `isinstance`
with numeric value 0 or 1. -/
def scoreOK (v : Option JVal) : Bool :=
  match v with
  | some (.jint n) => decide (0 ≤ n ∧ n ≤ 100)
  | some (.jbool b) => decide (0 ≤ (if b then (1 : Int) else 0) ∧ (if b then (1 : Int) else 0) ≤ 100)
  | _ => false

/-- The checklist loop of `refinement_response_prompt._validate`: each of the
four fields must be present in the checklist dict and be a bool. -/
def checkBoolFields (cl : Dict) : List String → Option String
  | [] => none
  | f :: rest =>
    match jlookup cl f with
    | none => some ("checklist missing required field: " ++ f)
    | some (.jbool _) => checkBoolFields cl rest
    | some _ => some ("checklist." ++ f ++ " must be a boolean")

/-- `refinement_response_prompt._validate`. -/
def refinement_validate (d : Dict) : Except String Dict :=
  match checkFieldsPresent d ["action", "new_plan", "done", "score", "why", "checklist", "success"] with
  | some e => .error e
  | none =>
    if pyEqStrOpt (jlookup d "action") "REFINEMENT_RESPONSE" then
      if isStrField (jlookup d "new_plan") then
        if doneLiteralOK (jlookup d "done") then
          if scoreOK (jlookup d "score") then
            if isStrField (jlookup d "why") then
              match jlookup d "checklist" with
              | some (.jobj cl) =>
                match checkBoolFields cl ["objective", "inputs", "outputs", "constraints"] with
                | some e => .error e
                | none =>
                  if isBoolField (jlookup d "success") then .ok d
                  else .error "success must be a boolean"
              | _ => .error "checklist must be a dictionary"
            else .error "why must be a string"
          else .error "score must be an integer between 0 and 100"
        else .error "done must be yes or no"
      else .error "new_plan must be a string"
    else .error "Action must be REFINEMENT_RESPONSE"

/-!
Spec-side conformance predicates, written from the spec's required-field
table (§4.2) for the refinement comparison of claim C7.
-/

/-- Spec conformance for DelegateTask: the required fields present as
strings and the action literal. -/
def delegation_conforms_spec (d : Dict) : Bool :=
  (["action", "agent", "caller_agent", "reason", "user_input"].all
    fun f => isStrField (jlookup d f))
  && pyEqStrOpt (jlookup d "action") "DELEGATE_TASK"

/-- Spec conformance for DelegateBack: required string fields, action
literal, `success ∈ {"True","False"}`. -/
def delegation_back_conforms_spec (d : Dict) : Bool :=
  (["action", "return_to_agent", "return_from_agent", "reason", "success"].all
    fun f => isStrField (jlookup d f))
  && pyEqStrOpt (jlookup d "action") "DELEGATE_BACK"
  && successLiteralOK (jlookup d "success")

/-- Spec conformance for UseTool. -/
def tools_conforms_spec (d : Dict) : Bool :=
  (["action", "tool", "args"].all fun f => isStrField (jlookup d f))
  && pyEqStrOpt (jlookup d "action") "USE_TOOL"

/-- Spec conformance for ToolReturn. -/
def tool_return_conforms_spec (d : Dict) : Bool :=
  (["action", "tool", "result", "success"].all fun f => isStrField (jlookup d f))
  && pyEqStrOpt (jlookup d "action") "TOOL_RETURN"
  && successLiteralOK (jlookup d "success")

/-- Spec conformance for RefinementResponse: fields present, action literal,
`new_plan`/`why` strings, `done ∈ {"yes","no"}`, score an integer in 0–100,
checklist a dict with the four boolean entries, `success` a boolean. -/
def refinement_conforms_spec (d : Dict) : Bool :=
  (["action", "new_plan", "done", "score", "why", "checklist", "success"].all
    fun f => (jlookup d f).isSome)
  && pyEqStrOpt (jlookup d "action") "REFINEMENT_RESPONSE"
  && isStrField (jlookup d "new_plan")
  && doneLiteralOK (jlookup d "done")
  && scoreOK (jlookup d "score")
  && isStrField (jlookup d "why")
  && (match jlookup d "checklist" with
      | some (.jobj cl) =>
        ["objective", "inputs", "outputs", "constraints"].all
          fun f => isBoolField (jlookup cl f)
      | _ => false)
  && isBoolField (jlookup d "success")

/-!
## Response cleanup and refinement fallback (`Agent` in `src/agents/agent.py`)
-/

/-- `str.find(sub)`: smallest index at which `sub` occurs, `none` when absent
(Python returns -1). -/
def strFindSub : List Char → List Char → Option Nat
  | hay, pat =>
    if pat.isPrefixOf hay then some 0
    else
      match hay with
      | [] => none
      | _ :: t => (strFindSub t pat).map (· + 1)

/-- `str.rfind(sub)`: greatest index at which `sub` occurs, `none` when
absent.  All occurrence indices in ascending order, last one taken. -/
def strRFindSub (hay pat : List Char) : Option Nat :=
  ((List.range (hay.length + 1)).filter fun i => pat.isPrefixOf (hay.drop i)).getLast?

/-- Python slice `s[a:b]` on a char list (empty when `b ≤ a`). -/
def pySliceChars (s : List Char) (a b : Nat) : List Char :=
  (s.drop a).take (b - a)

/-- `Agent.cleanup_response`: extract the fenced JSON block between the
"```json" start marker (first occurrence) and the "```" end marker (last
occurrence), stripped; a missing marker raises `ValueError`
(modelled as `Except.error`). -/
def cleanup_response (fullResponse : String) : Except String String :=
  let hay := fullResponse.data
  let startMarker := "```json".data
  let endMarker := "```".data
  match strFindSub hay startMarker with
  | none => .error "Could not find JSON start marker in response"
  | some startIndex =>
    let jsonStart := startIndex + startMarker.length
    match strRFindSub hay endMarker with
    | none => .error "Could not find JSON end marker in response"
    | some endIndex =>
      .ok (String.mk (pySliceChars hay jsonStart endIndex)).trim

/-- The degraded fallback record returned by `_llm_refine` when the
refinement call fails for any reason. -/
def refineFallback (plan : String) : Dict :=
  [("new_plan", .jstr plan),
   ("done", .jstr "yes"),
   ("score", .jint 50),
   ("why", .jstr "refinement failed"),
   ("checklist", .jobj [("objective", .jbool false), ("inputs", .jbool false),
                        ("outputs", .jbool false), ("constraints", .jbool false)]),
   ("success", .jbool false)]

/-- `Agent._llm_refine`.  The backend completion (`send_llm`) outcome is the
oracle `backend` (`.error` = the call raised); `jsonParse` is the `json.loads`
oracle (`none` = `JSONDecodeError`).  Every failure path — backend exception,
missing fenced block, malformed JSON, or an action tag other than
`REFINEMENT_RESPONSE` — is caught and turned into the fallback record. -/
def llm_refine (plan : String) (backend : Except String String)
    (jsonParse : String → Option Dict) : Dict :=
  match backend with
  | .error _ => refineFallback plan
  | .ok fullResponse =>
    match cleanup_response fullResponse with
    | .error _ => refineFallback plan
    | .ok cleaned =>
      match jsonParse cleaned with
      | none => refineFallback plan
      | some responseJson =>
        if pyEqStrOpt (jlookup responseJson "action") "REFINEMENT_RESPONSE" then
          responseJson
        else
          refineFallback plan

/-!
## Scratchpad refinement loop (`Agent._reason_scratchpad`)

The backend is the oracle `oracle : ℕ → Dict` giving the (total, per C6)
`_llm_refine` result of each iteration; `sim` is the `difflib`
`SequenceMatcher(...).ratio()` oracle.  Python exceptions arising from
ill-typed backend fields (`TypeError` on `score >= bound`, `AttributeError`
on `.strip()`/`.values()` of a non-string/non-dict) are modelled by `PyErr`.
-/

/-- A raised Python exception. -/
inductive PyErr where
  | typeError
  | attributeError
deriving Repr, DecidableEq

/-- `ScratchpadConfig` from `src/agents/agent.py`. -/
structure ScratchpadConfig where
  enabled : Bool
  max_iterations : Int
  score_lower_bound : Int
  similarity_threshold : ℚ
  unchanged_limit : Int
deriving Repr

/-- `Agent._checklist_score`: 0 for a falsy checklist, otherwise the count of
truthy values — `.values()` of a truthy non-dict raises `AttributeError`. -/
def checklist_score (checklist : JVal) : Except PyErr Nat :=
  if !pyTruthy checklist then .ok 0
  else
    match checklist with
    | .jobj l => .ok (l.countP fun kv => pyTruthy kv.2)
    | _ => .error .attributeError

/-- Python `score >= bound` for a JSON value: ints compare numerically,
bools as 0/1, anything else raises `TypeError`. -/
def pyGEInt (v : JVal) (bound : Int) : Except PyErr Bool :=
  match v with
  | .jint n => .ok (decide (n ≥ bound))
  | .jbool b => .ok (decide ((if b then (1 : Int) else 0) ≥ bound))
  | _ => .error .typeError

/-- Python `v.strip()`: defined for strings, `AttributeError` otherwise. -/
def pyStrip (v : JVal) : Except PyErr String :=
  match v with
  | .jstr s => .ok s.trim
  | _ => .error .attributeError

/-- Result of one scratchpad iteration body: break out with the final plan,
propagate a raised exception, or continue with the new plan and the updated
unchanged-counter. -/
inductive StepRes where
  | brk (plan : JVal)
  | thrown (e : PyErr)
  | cont (plan : JVal) (unchanged : Nat)

/-- Stop condition 3 (checklist completeness): `checklist_max = 4`. -/
def scratchStepD (newPlan : JVal) (unchanged : Nat) (checklist : JVal) : StepRes :=
  match checklist_score checklist with
  | .error e => .thrown e
  | .ok n => if n = 4 then .brk newPlan else .cont newPlan unchanged

/-- Stop condition 2 (unchanged iterations): `unchanged = unchanged + 1 if
prev.strip() == new_plan.strip() else 0`, stop once `unchanged` reaches the
configured limit. -/
def scratchStepC (cfg : ScratchpadConfig) (newPlan prev : JVal) (unchanged : Nat)
    (checklist : JVal) : StepRes :=
  match pyStrip prev with
  | .error e => .thrown e
  | .ok s1 =>
    match pyStrip newPlan with
    | .error e => .thrown e
    | .ok s2 =>
      let unchanged' := if s1 = s2 then unchanged + 1 else 0
      if (unchanged' : Int) ≥ cfg.unchanged_limit then .brk newPlan
      else scratchStepD newPlan unchanged' checklist

/-- Stop condition 1 (semantic similarity): `if prev and
self._nearly_identical(prev, new_plan)` — `_nearly_identical` strips both
texts and compares the similarity ratio against the threshold. -/
def scratchStepB (cfg : ScratchpadConfig) (sim : String → String → ℚ)
    (newPlan prev : JVal) (unchanged : Nat) (checklist : JVal) : StepRes :=
  if pyTruthy prev then
    match pyStrip prev with
    | .error e => .thrown e
    | .ok s1 =>
      match pyStrip newPlan with
      | .error e => .thrown e
      | .ok s2 =>
        if sim s1 s2 ≥ cfg.similarity_threshold then .brk newPlan
        else scratchStepC cfg newPlan prev unchanged checklist
  else scratchStepC cfg newPlan prev unchanged checklist

/-- One iteration body of `_reason_scratchpad` given the `_llm_refine`
result `resp`: field extraction with `.get` defaults, then stop condition 0
(`done == "yes" and score >= score_lower_bound`) and the later conditions. -/
def scratchStepBody (cfg : ScratchpadConfig) (sim : String → String → ℚ)
    (plan prev : JVal) (unchanged : Nat) (resp : Dict) : StepRes :=
  let newPlan := jgetD resp "new_plan" plan
  let done := jgetD resp "done" (.jstr "no")
  let score := jgetD resp "score" (.jint 0)
  let checklist := jgetD resp "checklist" (.jobj [])
  if pyEqStr done "yes" then
    match pyGEInt score cfg.score_lower_bound with
    | .error e => .thrown e
    | .ok true => .brk newPlan
    | .ok false => scratchStepB cfg sim newPlan prev unchanged checklist
  else scratchStepB cfg sim newPlan prev unchanged checklist

/-- The `for step in range(max_iterations)` loop of `_reason_scratchpad`.
Returns the outcome (final plan or raised exception) together with the
number of `_llm_refine` backend calls performed. -/
def scratchLoop (cfg : ScratchpadConfig) (sim : String → String → ℚ)
    (oracle : Nat → Dict) :
    Nat → Nat → JVal → JVal → Nat → (Except PyErr JVal) × Nat
  | 0, _, plan, _, _ => (.ok plan, 0)
  | fuel + 1, step, plan, prev, unchanged =>
    match scratchStepBody cfg sim plan prev unchanged (oracle step) with
    | .brk p => (.ok p, 1)
    | .thrown e => (.error e, 1)
    | .cont p unchanged' =>
      let rest := scratchLoop cfg sim oracle fuel (step + 1) p p unchanged'
      (rest.1, rest.2 + 1)

/-- `Agent._reason_scratchpad`: when the scratchpad is disabled the initial
prompt is returned unchanged with no backend call; otherwise the refinement
loop runs with `plan = initial_prompt`, `prev = ""`, `unchanged = 0` for at
most `max_iterations` iterations (`range` of a non-positive int is empty). -/
def reason_scratchpad (cfg : ScratchpadConfig) (sim : String → String → ℚ)
    (oracle : Nat → Dict) (initialPrompt : String) : (Except PyErr JVal) × Nat :=
  if cfg.enabled then
    scratchLoop cfg sim oracle cfg.max_iterations.toNat 0
      (.jstr initialPrompt) (.jstr "") 0
  else
    (.ok (.jstr initialPrompt), 0)

/-!
## Backend model pool (`LMStudioClient` in `src/models/lmstudio.py`)

`lms.llm(key, config=...)` opens a fresh backend connection each time it is
called; connections are identified by a monotonically increasing handle id
and tracked in the ghost field `live` (instantiated and not yet unloaded).
-/

/-- `BackendInfo` from `src/models/bases.py` (value equality over all
fields, per its `__eq__`). -/
structure BackendInfoM where
  name : String
  base_url : String
  support_schema : Bool
  support_grammar : Bool
  max_loaded_models : Option Int
deriving Repr, DecidableEq

/-- `ModelInfo` from `src/models/bases.py` (value equality over all fields,
per its `__eq__`). -/
structure ModelInfoM where
  backend_info : BackendInfoM
  model_name : String
  key : String
  context_length : Int
  gpu_fraction : ℚ
  stop_strings : Option (List String)
deriving Repr, DecidableEq

/-- A live `LMStudioModelInstance`: the descriptor it was loaded with and
the identity of its underlying `lms.llm` connection. -/
structure LMSInstance where
  model_info : ModelInfoM
  handle_id : Nat
deriving Repr, DecidableEq

/-- State of one `LMStudioClient`: the `loaded_models` dict (model name →
instance, insertion-ordered), the next fresh connection id, and the ghost
list of live (loaded, not unloaded) backend connections. -/
structure ClientState where
  loaded_models : List (String × LMSInstance)
  next_id : Nat
  live : List LMSInstance
deriving Repr, DecidableEq

/-- A fresh client (`self.loaded_models = {}`). -/
def ClientState.empty : ClientState := ⟨[], 0, []⟩

/-- The eviction loop `while len(self.loaded_models) >= max_loaded_models`:
unload the first dict entry and delete it, until below the limit.  On an
empty dict with a non-positive limit, `next(iter(...))` raises
`StopIteration` (`none`). -/
def evictLoop (maxLoaded : Int) :
    List (String × LMSInstance) → List LMSInstance →
    Option (List (String × LMSInstance) × List LMSInstance)
  | [], live => if (0 : Int) ≥ maxLoaded then none else some ([], live)
  | (k, inst) :: rest, live =>
    if (((k, inst) :: rest).length : Int) ≥ maxLoaded then
      evictLoop maxLoaded rest (live.filter fun i => i.handle_id ≠ inst.handle_id)
    else
      some ((k, inst) :: rest, live)

/-- The fall-through path of `load_model`: evict while over the limit, then
instantiate a new handle via `lms.llm(...)` and return it — without
registering it in `loaded_models`. -/
def load_model_fresh (st : ClientState) (mi : ModelInfoM) (maxLoaded : Int) :
    Option (LMSInstance × ClientState) :=
  match evictLoop maxLoaded st.loaded_models st.live with
  | none => none
  | some (lm', live') =>
    let inst : LMSInstance := ⟨mi, st.next_id⟩
    some (inst, { loaded_models := lm', next_id := st.next_id + 1,
                  live := live' ++ [inst] })

/-- `LMStudioClient.load_model`.  Returns the handle and the new client
state, or `none` when an assertion/`StopIteration` fires.  NOTE: translated
faithfully from the source — the newly instantiated handle is returned but
never inserted into `loaded_models`. -/
def load_model (st : ClientState) (mi : ModelInfoM) :
    Option (LMSInstance × ClientState) :=
  match mi.backend_info.max_loaded_models with
  | none => none
  | some maxLoaded =>
    match List.lookup mi.model_name st.loaded_models with
    | some loadedModel =>
      if loadedModel.model_info = mi then
        some (loadedModel, st)
      else
        load_model_fresh st mi maxLoaded
    | none => load_model_fresh st mi maxLoaded

/-- `LMStudioClient.is_model_loaded`. -/
def is_model_loaded (st : ClientState) (mi : ModelInfoM) : Bool :=
  (List.lookup mi.model_name st.loaded_models).isSome

/-- Live handles of the client registered or not, for a given model id. -/
def liveHandlesFor (st : ClientState) (modelName : String) : List LMSInstance :=
  st.live.filter fun i => i.model_info.model_name = modelName

/-!
## Orchestration loop (`main_loop` in `src/main.py`)
-/

/-- How `main_loop` classifies one `response_json` before acting on it: the
loop guard compares `response_json['action']` against
`PromptType.NORMAL_RESPONSE.value` (the *string*), then each branch against
the other `.value` strings; any other action raises `ValueError`, which the
outer per-turn handler catches (the turn is abandoned). -/
inductive TurnClass where
  | surfaced (response : JVal)
  | dispatchDelegateTask
  | dispatchDelegateBack
  | dispatchUseTool
  | unknownActionError
deriving Repr

/-- The branch structure of one iteration of `main_loop`'s inner loop on a
response record. -/
def main_loop_classify (resp : Dict) : TurnClass :=
  let action := jgetD resp "action" .jnull
  if pyEqStr action "NORMAL_RESPONSE" then
    .surfaced (jgetD resp "response" .jnull)
  else if pyEqStr action "DELEGATE_TASK" then .dispatchDelegateTask
  else if pyEqStr action "DELEGATE_BACK" then .dispatchDelegateBack
  else if pyEqStr action "USE_TOOL" then .dispatchUseTool
  else .unknownActionError

/-- The synthetic record returned by `Agent.call_llm` on `KeyboardInterrupt`:
`{"action": PromptType.NORMAL_RESPONSE, "response": ...}` — note the action
value is the `PromptType` *enum member*, not its `.value` string. -/
def interruptedResponse : Dict :=
  [("action", .jenum "NORMAL_RESPONSE"),
   ("response", .jstr "I was interrupted. Please try again or type 'quit' to exit.")]

/-- State of the orchestration loop: the active agent, the per-agent
contexts and chat histories, and the agents-pool names. -/
structure OrchState where
  current : String
  actx : String → AgentCtx
  histories : String → List Message
  pool : List String

/-- The string accessor `p.agent` after successful validation. -/
def jgetStr (d : Dict) (k : String) : String :=
  match jlookup d k with
  | some (.jstr s) => s
  | _ => ""

/-- A `call_llm` issued to the agent named `who`: apply its history effect
to that agent's history and leave every other history unchanged. -/
def histAfterCall (st : OrchState) (who : String)
    (prompt cleanedOracle : String) (addToHistory : Bool)
    (summaryOracle : String) : String → List Message :=
  fun a =>
    if a = who then
      call_llm_history_effect (st.actx a) (st.histories a) prompt
        cleanedOracle addToHistory summaryOracle
    else st.histories a

/-- The DELEGATE_TASK branch of `main_loop`.  `cleanedOracle` and
`summaryOracle` stand for the backend texts consumed by the `call_llm`
calls.  On validation failure or unknown target agent, the corrective
`call_llm(..., add_to_history=False)` goes to the *same* agent and
`CurrentAgent` is not reassigned; on success the active agent switches to
the target, which is called with the generated delegation prompt
(`add_to_history=True`). -/
def delegate_task_step (st : OrchState) (resp : Dict)
    (cleanedOracle summaryOracle : String) : OrchState :=
  match delegation_validate resp with
  | .error e =>
    let h := histAfterCall st st.current
      ("Your DELEGATE_TASK prompt is invalid. Error: " ++ e)
      cleanedOracle false summaryOracle
    { st with histories := h }
  | .ok p =>
    let agent := jgetStr p "agent"
    if agent ∈ st.pool then
      let h := histAfterCall st agent
        ("You were delegated from " ++ jgetStr p "caller_agent" ++ ". "
          ++ jgetStr p "user_input")
        cleanedOracle true summaryOracle
      { st with current := agent, histories := h }
    else
      let h := histAfterCall st st.current
        ("Agent " ++ agent ++ " does not exist. Please try again.")
        cleanedOracle false summaryOracle
      { st with histories := h }

/-!
## Tool execution (`run_tool` in `src/agents/tools/tool_executer.py`)
-/

/-- A declared-parameter type annotation (bool/int/float/str or other). -/
inductive PyType where
  | pybool
  | pyint
  | pyfloat
  | pystr
  | pyother
deriving Repr, DecidableEq

/-- One parameter of a tool's signature: name, optional type annotation,
optional default value. -/
structure ToolParam where
  name : String
  ptype : Option PyType
  default : Option JVal
deriving Repr

/-- The external world `run_tool` interacts with: the tools directory and
importlib, the tool functions themselves, and the `int()`/`float()`
built-ins. -/
structure ToolEnv where
  moduleExists : String → Bool
  specLoadable : String → Bool
  execModuleOk : String → Bool
  funcExists : String → String → Bool
  funcSig : String → String → List ToolParam
  callTool : String → String → List (String × JVal) → Except String Dict
  parseInt : String → Option Int
  parseFloat : String → Option ℚ

/-- `_convert_value_to_type`. -/
def convert_value_to_type (env : ToolEnv) (value : String) (t : PyType) :
    Except String JVal :=
  match t with
  | .pybool =>
    if value.toLower ∈ ["true", "1", "yes", "on"] then .ok (.jbool true)
    else if value.toLower ∈ ["false", "0", "no", "off"] then .ok (.jbool false)
    else .error ("Cannot convert " ++ value ++ " to boolean")
  | .pyint =>
    match env.parseInt value with
    | some n => .ok (.jint n)
    | none => .error ("invalid literal for int(): " ++ value)
  | .pyfloat =>
    match env.parseFloat value with
    | some _ => .ok (.jstr value)
    | none => .error ("could not convert string to float: " ++ value)
  | .pystr => .ok (.jstr value)
  | .pyother => .ok (.jstr value)

/-- Parsing of the `"arg1=value1,arg2=value2"` args string: split on commas,
keep the pairs containing `=`, split each at the first `=`, strip both
sides; later duplicates overwrite (dict assignment). -/
def parseToolArgs (args : String) : List (String × String) :=
  if args.trim.isEmpty then []
  else
    (args.splitOn ",").foldl
      (fun acc pair =>
        let pair := pair.trim
        if pair.contains '=' then
          let key := pair.takeWhile (· ≠ '=')
          let value := (pair.dropWhile (· ≠ '=')).drop 1
          (acc.filter fun kv => kv.1 ≠ key.trim) ++ [(key.trim, value.trim)]
        else acc)
      []

/-- The parameter-binding loop: by-name matching with type coercion,
defaults for missing optional parameters, `ValueError` for a missing
required one. -/
def bindToolArgs (env : ToolEnv) (parsed : List (String × String)) :
    List ToolParam → Except String (List (String × JVal))
  | [] => .ok []
  | p :: rest =>
    match List.lookup p.name parsed with
    | some value =>
      match p.ptype with
      | some t =>
        match convert_value_to_type env value t with
        | .error e => .error e
        | .ok v =>
          match bindToolArgs env parsed rest with
          | .error e => .error e
          | .ok tail => .ok ((p.name, v) :: tail)
      | none =>
        match bindToolArgs env parsed rest with
        | .error e => .error e
        | .ok tail => .ok ((p.name, .jstr value) :: tail)
    | none =>
      match p.default with
      | some v =>
        match bindToolArgs env parsed rest with
        | .error e => .error e
        | .ok tail => .ok ((p.name, v) :: tail)
      | none => .error ("Missing required argument: " ++ p.name)

/-- A `tool_return_prompt` failure record as built throughout `run_tool`. -/
def mkToolReturnFail (tool result : String) : Dict :=
  [("action", .jstr "TOOL_RETURN"), ("tool", .jstr tool),
   ("result", .jstr result), ("success", .jstr "False")]

/-- `run_tool`.  `.error` models the `ValueError` raised (and not caught)
for a tool name without a `.` separator; every other failure is converted
into a returned `TOOL_RETURN` record with `success = "False"`. -/
def run_tool (env : ToolEnv) (name args : String) : Except String Dict :=
  if !name.contains '.' then
    .error ("Invalid tool name format: " ++ name ++ ". Expected format: module.function")
  else
    let moduleName := name.takeWhile (· ≠ '.')
    let functionName := (name.dropWhile (· ≠ '.')).drop 1
    if !env.moduleExists moduleName then
      .ok (mkToolReturnFail name ("Tool module not found: " ++ moduleName ++ ".py"))
    else if !env.specLoadable moduleName then
      .ok (mkToolReturnFail name ("Could not load spec for " ++ moduleName))
    else if !env.execModuleOk moduleName then
      .ok (mkToolReturnFail name "Error executing tool: module import failed")
    else if !env.funcExists moduleName functionName then
      .ok (mkToolReturnFail name
        ("Function " ++ functionName ++ " not found in module " ++ moduleName))
    else
      match bindToolArgs env (parseToolArgs args) (env.funcSig moduleName functionName) with
      | .error e => .ok (mkToolReturnFail name ("Error executing tool: " ++ e))
      | .ok bound =>
        match env.callTool moduleName functionName bound with
        | .error e => .ok (mkToolReturnFail name ("Error executing tool: " ++ e))
        | .ok r => .ok r

/-!
## File tools (`src/agents/tools/file_tools.py`)
-/

/-- A filesystem snapshot: path → file contents when the path exists. -/
def FileSys : Type := String → Option String

/-- `write_file`: refuses to write when the path does not already exist
(returns the "File not found" failure record); otherwise overwrites the
file.  Returns the `tool_return_prompt` record and the resulting
filesystem. -/
def write_file (fs : FileSys) (path data : String) : Dict × FileSys :=
  match fs path with
  | none =>
    ([("action", .jstr "TOOL_RETURN"), ("tool", .jstr "write_file"),
      ("result", .jstr "File not found"), ("success", .jstr "False")], fs)
  | some _ =>
    ([("action", .jstr "TOOL_RETURN"), ("tool", .jstr "write_file"),
      ("result", .jstr "File written successfully"), ("success", .jstr "True")],
     fun p => if p = path then some data else fs p)

/-!
## Concrete example inputs used by the witnesses and counterexamples
-/

/-- An example summarization config: threshold 0.65, one char per token,
summarize-percentage 0.5. -/
def exSummCfg : SummCfg := ⟨65/100, 1, 1/2⟩

/-- An example agent context with context length 10 and no system/seed
text. -/
def exCtx : AgentCtx := ⟨0, [], exSummCfg, 10⟩

/-- A history of five identical four-char messages (usage 200%). -/
def exHist : List Message := List.replicate 5 ⟨"user", "abcd", none, 4⟩

/-- An agent context whose usage is always far below every threshold. -/
def exColdCtx : AgentCtx := ⟨0, [], ⟨65/100, 4, 1/2⟩, 1000000⟩

/-- An example lmstudio backend allowing two concurrently loaded models. -/
def exBackend : BackendInfoM :=
  ⟨"lmstudio", "http://localhost:1234", false, false, some 2⟩

/-- An example model descriptor on `exBackend`. -/
def exModel : ModelInfoM := ⟨exBackend, "qwen3", "qwen3-key", 8192, 1, none⟩

/-- A conforming DELEGATE_TASK record whose target agent is `Hermes`. -/
def exDelegateResp : Dict :=
  [("action", .jstr "DELEGATE_TASK"), ("agent", .jstr "Hermes"),
   ("caller_agent", .jstr "Zeus"), ("reason", .jstr "expertise"),
   ("user_input", .jstr "do the thing")]

/-- An orchestration state whose pool contains only `Zeus`. -/
def exOrchState : OrchState :=
  { current := "Zeus", actx := fun _ => exColdCtx,
    histories := fun _ => [], pool := ["Zeus"] }

/-- A conforming REFINEMENT_RESPONSE record. -/
def exRefinementResp : Dict :=
  [("action", .jstr "REFINEMENT_RESPONSE"), ("new_plan", .jstr "better plan"),
   ("done", .jstr "yes"), ("score", .jint 85), ("why", .jstr "clear"),
   ("checklist", .jobj [("objective", .jbool true), ("inputs", .jbool true),
                        ("outputs", .jbool false), ("constraints", .jbool true)]),
   ("success", .jbool true)]

/-- A scratchpad config with the scratchpad disabled. -/
def exDisabledScratchpad : ScratchpadConfig := ⟨false, 5, 70, 9/10, 2⟩

/-- An oracle/similarity pair for witnesses: empty refine results, zero
similarity. -/
def exRefineOracle : Nat → Dict := fun _ => []

def exSim : String → String → ℚ := fun _ _ => 0

/-!
## Claim theorems
-/

/-- C2: The synthetic record returned by `Agent.call_llm` on operator
interrupt carries the `PromptType.NORMAL_RESPONSE` *enum member* as its
action, while `main_loop` compares the action against the `.value` string
`"NORMAL_RESPONSE"`; a plain `Enum` member never equals its value string,
so the orchestration loop does *not* recognize the record as a
NormalResponse — it falls through every dispatch branch into the
unknown-action `ValueError` (the turn is abandoned by the outer handler)
instead of surfacing the response to the user. -/
theorem C2_interrupt_not_recognized :
    main_loop_classify interruptedResponse = TurnClass.unknownActionError := by
  rfl

/-- C1: Evaluating `LMStudioClient.load_model` on a fresh client shows the
claimed handle-registry invariant is broken by the code: the first load of
`exModel` returns a handle but registers nothing (`loaded_models` stays
empty), so a second load with the *identical* descriptor instantiates a
second live backend connection for the same model id instead of returning
the existing handle — two live handles for one model id, and
`is_model_loaded` still reports the model as not loaded. -/
theorem C1_load_model_never_registers :
    ∃ h1 st1 h2 st2,
      load_model ClientState.empty exModel = some (h1, st1) ∧
      st1.loaded_models = [] ∧
      is_model_loaded st1 exModel = false ∧
      load_model st1 exModel = some (h2, st2) ∧
      h1.handle_id ≠ h2.handle_id ∧
      (liveHandlesFor st2 exModel.model_name).length = 2 := by
  refine ⟨⟨exModel, 0⟩, ⟨[], 1, [⟨exModel, 0⟩]⟩, ⟨exModel, 1⟩,
    ⟨[], 2, [⟨exModel, 0⟩, ⟨exModel, 1⟩]⟩, rfl, rfl, rfl, rfl, by decide, rfl⟩

/-- C10: `write_file` on a path that does not exist returns the
`TOOL_RETURN` record `{success: "False", result: "File not found"}` and
leaves the filesystem untouched — it never creates a new file. -/
theorem C10_write_file_requires_existing (fs : FileSys) (path data : String)
    (h : fs path = none) :
    write_file fs path data =
      ([("action", .jstr "TOOL_RETURN"), ("tool", .jstr "write_file"),
        ("result", .jstr "File not found"), ("success", .jstr "False")], fs) := by
  unfold write_file
  rw [h]

/-- Witness for C10 at a concrete empty filesystem. -/
theorem C10_write_file_requires_existing_witness :
    write_file (fun _ => none) "/tmp/x" "data" =
      ([("action", .jstr "TOOL_RETURN"), ("tool", .jstr "write_file"),
        ("result", .jstr "File not found"), ("success", .jstr "False")],
       fun _ => none) :=
  C10_write_file_requires_existing (fun _ => none) "/tmp/x" "data" rfl

/-- C5: `summarize_history` leaves the history unchanged whenever the
context-usage percent is below `percentage_to_summarize × 100` or the
old-head partition (`chat_history[:-int(len*pct)]`) is empty — in
particular an already-compacted conversation with an empty head is a
no-op. -/
theorem C5_summarize_noop (a : AgentCtx) (hist : List Message) (s : String)
    (h : (get_context_usage a hist).2 < a.cfg.percentage_to_summarize * 100
       ∨ (pySliceInit hist (retainedCount a hist)).isEmpty) :
    summarize_history a hist s = hist := by
  unfold summarize_history
  rcases h with h | h
  · rw [if_pos h]
  · split
    · rfl
    · rw [if_pos h]

/-- Witness for C5: an empty history is far below the trigger, so
compaction leaves it unchanged. -/
theorem C5_summarize_noop_witness :
    summarize_history exColdCtx [] "sum" = [] :=
  C5_summarize_noop exColdCtx [] "sum"
    (Or.inl (by norm_num [get_context_usage, exColdCtx]))

/-- Helper: the retained-tail count of the example history is
`int(5 * 0.5) = 2` (truncation, not rounding up). -/
lemma exHist_retainedCount : retainedCount exCtx exHist = 2 := by
  unfold retainedCount
  have h5 : (exHist.length : ℚ) = 5 := by norm_num [exHist]
  rw [h5, show exCtx.cfg.percentage_to_summarize = 1/2 from rfl]
  rw [show (5 : ℚ) * (1/2) = 5/2 by norm_num]
  rw [show ⌊(5/2 : ℚ)⌋ = (2 : ℤ) from Int.floor_eq_iff.mpr (by norm_num)]
  rfl

/-- Helper: the usage percent of the example history (200%) is at or above
the `percentage_to_summarize × 100` rewrite threshold (50%). -/
lemma exHist_triggered :
    (get_context_usage exCtx exHist).2 ≥ exCtx.cfg.percentage_to_summarize * 100 := by
  norm_num [get_context_usage, exCtx, exSummCfg, exHist]

/-- Helper: what compaction of the example history actually produces — one
summary message plus the last *two* (`⌊5·0.5⌋`) messages. -/
lemma exHist_compacted :
    summarize_history exCtx exHist "S" = mkSummaryMessage "S" :: exHist.drop 3 := by
  unfold summarize_history
  rw [if_neg (not_lt.mpr exHist_triggered)]
  simp only [pySliceLast, pySliceInit, exHist_retainedCount]
  norm_num [exHist]

/-- C3 counterexample: for the 5-message history at 200% usage with
`percentage_to_summarize = 0.5`, compaction retains `int(5·0.5) = 2`
messages, not the claimed `⌈5·0.5⌉ = 3`: the code truncates the retained
count toward zero, so the result is not the summary followed by the final
3 messages. -/
theorem C3_ceiling_counterexample :
    (get_context_usage exCtx exHist).2 ≥ exCtx.cfg.percentage_to_summarize * 100 ∧
    summarize_history exCtx exHist "S" ≠
      mkSummaryMessage "S" ::
        exHist.drop (exHist.length -
          (⌈(exHist.length : ℚ) * exCtx.cfg.percentage_to_summarize⌉).toNat) := by
  refine ⟨exHist_triggered, ?_⟩
  have hceil :
      (⌈(exHist.length : ℚ) * exCtx.cfg.percentage_to_summarize⌉).toNat = 3 := by
    have h5 : (exHist.length : ℚ) = 5 := by norm_num [exHist]
    rw [h5, show exCtx.cfg.percentage_to_summarize = 1/2 from rfl]
    rw [show (5 : ℚ) * (1/2) = 5/2 by norm_num]
    rw [show ⌈(5/2 : ℚ)⌉ = (3 : ℤ) from Int.ceil_eq_iff.mpr (by norm_num)]
    rfl
  rw [hceil, exHist_compacted]
  decide

/-- C3 (amended): when compaction actually rewrites — usage percent at or
above `percentage_to_summarize × 100` and the old-head partition nonempty
(equivalently `1 ≤ ⌊pct·len⌋ < len`) — the result is exactly one synthetic
summary message followed by the final `⌊percentage_to_summarize × len⌋`
(floor, not ceiling) messages of the history unchanged, and its length
never exceeds the original length. -/
theorem C3_compaction_shape (a : AgentCtx) (hist : List Message) (s : String)
    (htrig : (get_context_usage a hist).2 ≥ a.cfg.percentage_to_summarize * 100)
    (hk1 : 1 ≤ retainedCount a hist)
    (hk2 : retainedCount a hist < hist.length) :
    summarize_history a hist s =
      mkSummaryMessage s :: hist.drop (hist.length - retainedCount a hist) ∧
    (summarize_history a hist s).length ≤ hist.length := by
  have hk0 : ¬ retainedCount a hist = 0 := by omega
  have htake : (hist.take (hist.length - retainedCount a hist)).isEmpty = false := by
    have hne : hist.take (hist.length - retainedCount a hist) ≠ [] := by
      apply List.ne_nil_of_length_pos
      rw [List.length_take]
      omega
    simpa [List.isEmpty_iff] using hne
  have hshape : summarize_history a hist s =
      mkSummaryMessage s :: hist.drop (hist.length - retainedCount a hist) := by
    unfold summarize_history
    rw [if_neg (not_lt.mpr htrig)]
    simp only [pySliceLast, pySliceInit, if_neg hk0, htake]
    rfl
  refine ⟨hshape, ?_⟩
  rw [hshape]
  simp only [List.length_cons, List.length_drop]
  omega

/-- Witness for C3 (amended) at the example history: the compacted result
is the summary plus the last two messages, and it shrank from 5 to 3. -/
theorem C3_compaction_shape_witness :
    summarize_history exCtx exHist "S" =
      mkSummaryMessage "S" :: exHist.drop (exHist.length - retainedCount exCtx exHist) ∧
    (summarize_history exCtx exHist "S").length ≤ exHist.length :=
  C3_compaction_shape exCtx exHist "S" exHist_triggered
    (by rw [exHist_retainedCount]; norm_num) (by rw [exHist_retainedCount]; norm_num [exHist])

/-- Helper: the refinement loop performs at most `fuel` backend calls. -/
lemma scratchLoop_calls_le (cfg : ScratchpadConfig) (sim : String → String → ℚ)
    (oracle : Nat → Dict) :
    ∀ fuel step plan prev unchanged,
      (scratchLoop cfg sim oracle fuel step plan prev unchanged).2 ≤ fuel := by
  intro fuel
  induction fuel with
  | zero => intro step plan prev unchanged; simp [scratchLoop]
  | succ n ih =>
    intro step plan prev unchanged
    unfold scratchLoop
    cases scratchStepBody cfg sim plan prev unchanged (oracle step) with
    | brk p => simp
    | thrown e => simp
    | cont p unchanged' => simpa using ih (step + 1) p p unchanged'

/-- C4: the scratchpad refinement loop makes at most
`max_iterations` refinement backend calls, for *every* backend oracle,
similarity oracle and initial prompt — even when no stop condition ever
fires or an ill-typed backend field raises; and with the scratchpad
disabled it returns the initial prompt unchanged with zero backend
calls. -/
theorem C4_scratchpad_bounded (cfg : ScratchpadConfig)
    (sim : String → String → ℚ) (oracle : Nat → Dict) (initialPrompt : String) :
    (reason_scratchpad cfg sim oracle initialPrompt).2 ≤ cfg.max_iterations.toNat ∧
    (cfg.enabled = false →
      reason_scratchpad cfg sim oracle initialPrompt = (.ok (.jstr initialPrompt), 0)) := by
  constructor
  · unfold reason_scratchpad
    split
    · exact scratchLoop_calls_le cfg sim oracle cfg.max_iterations.toNat 0
        (.jstr initialPrompt) (.jstr "") 0
    · simp
  · intro h
    unfold reason_scratchpad
    rw [h]
    rfl

/-- Witness for C4 at a disabled config: identity result, zero calls. -/
theorem C4_scratchpad_bounded_witness :
    reason_scratchpad exDisabledScratchpad exSim exRefineOracle "plan" =
      (.ok (.jstr "plan"), 0) :=
  (C4_scratchpad_bounded exDisabledScratchpad exSim exRefineOracle "plan").2 rfl

/-- C6: whenever the refinement pipeline fails — the backend call raises,
the response lacks the fenced JSON block, the block fails to parse, or the
parsed record's action tag is not `REFINEMENT_RESPONSE` — `_llm_refine`
returns (never raises) the degraded fallback record: score 50,
`success = false`, and `new_plan` equal to the input plan unchanged. -/
theorem C6_refine_fallback (plan : String) (backend : Except String String)
    (jsonParse : String → Option Dict)
    (hfail :
      (∃ e, backend = .error e)
      ∨ (∃ r, backend = .ok r ∧ ∃ e, cleanup_response r = .error e)
      ∨ (∃ r c, backend = .ok r ∧ cleanup_response r = .ok c ∧ jsonParse c = none)
      ∨ (∃ r c j, backend = .ok r ∧ cleanup_response r = .ok c ∧ jsonParse c = some j
          ∧ pyEqStrOpt (jlookup j "action") "REFINEMENT_RESPONSE" = false)) :
    llm_refine plan backend jsonParse = refineFallback plan ∧
    jlookup (llm_refine plan backend jsonParse) "new_plan" = some (.jstr plan) ∧
    jlookup (llm_refine plan backend jsonParse) "score" = some (.jint 50) ∧
    jlookup (llm_refine plan backend jsonParse) "success" = some (.jbool false) := by
  have hmain : llm_refine plan backend jsonParse = refineFallback plan := by
    unfold llm_refine
    rcases hfail with ⟨e, he⟩ | ⟨r, hr, e, he⟩ | ⟨r, c, hr, hc, hp⟩ | ⟨r, c, j, hr, hc, hp, ha⟩
    · rw [he]
    · simp only [hr, he]
    · simp only [hr, hc, hp]
    · simp [hr, hc, hp, ha]
  refine ⟨hmain, ?_, ?_, ?_⟩ <;> rw [hmain] <;> rfl

/-- Witness for C6 with a raising backend. -/
theorem C6_refine_fallback_witness :
    llm_refine "the plan" (.error "connection reset") (fun _ => none) =
      refineFallback "the plan" ∧
    jlookup (llm_refine "the plan" (.error "connection reset") (fun _ => none))
      "new_plan" = some (.jstr "the plan") ∧
    jlookup (llm_refine "the plan" (.error "connection reset") (fun _ => none))
      "score" = some (.jint 50) ∧
    jlookup (llm_refine "the plan" (.error "connection reset") (fun _ => none))
      "success" = some (.jbool false) :=
  C6_refine_fallback "the plan" (.error "connection reset") (fun _ => none)
    (Or.inl ⟨"connection reset", rfl⟩)

/-- C8: when the active agent emits a valid DELEGATE_TASK whose target is
not in the agents pool, the orchestration loop's corrective follow-up goes
to the *same* agent with `add_to_history=False`: the active agent is not
switched and every agent's chat history — in particular the delegating
agent's — is left completely unchanged by the corrective exchange. -/
theorem C8_unknown_target_no_pollution (st : OrchState) (resp : Dict)
    (cleanedOracle summaryOracle : String)
    (hok : delegation_validate resp = .ok resp)
    (hmiss : jgetStr resp "agent" ∉ st.pool) :
    (delegate_task_step st resp cleanedOracle summaryOracle).current = st.current ∧
    (delegate_task_step st resp cleanedOracle summaryOracle).histories = st.histories := by
  unfold delegate_task_step
  simp only [hok]
  rw [if_neg hmiss]
  refine ⟨rfl, ?_⟩
  funext a
  show (if a = st.current then _ else _) = st.histories a
  split
  · rfl
  · rfl

/-- Witness for C8: delegating to the unknown agent `Hermes` from a pool
containing only `Zeus` changes neither the active agent nor any history. -/
theorem C8_unknown_target_no_pollution_witness :
    (delegate_task_step exOrchState exDelegateResp "cleaned" "sum").current =
      exOrchState.current ∧
    (delegate_task_step exOrchState exDelegateResp "cleaned" "sum").histories =
      exOrchState.histories :=
  C8_unknown_target_no_pollution exOrchState exDelegateResp "cleaned" "sum"
    rfl (by decide)

/-- C9: `run_tool` on a tool name without a `.` separator raises
`ValueError` (it does not return a `TOOL_RETURN` record), while on a name
containing `.` it is total: it always returns a record, which is either
the tool function's own return value or — for every failure (missing
module, unloadable module, missing function, argument-conversion error,
missing required argument, exception inside the tool) — a `TOOL_RETURN`
record with `success = "False"`. -/
theorem C9_run_tool_total (env : ToolEnv) (name args : String) :
    (name.contains '.' = false ∧ ∃ msg, run_tool env name args = .error msg)
    ∨ (name.contains '.' = true ∧ ∃ d, run_tool env name args = .ok d ∧
        (jlookup d "success" = some (.jstr "False")
          ∨ ∃ r, env.callTool (name.takeWhile (· ≠ '.'))
              ((name.dropWhile (· ≠ '.')).drop 1)
              r = .ok d)) := by
  by_cases h : name.contains '.'
  · right
    refine ⟨h, ?_⟩
    unfold run_tool
    rw [h]
    simp only [Bool.not_true, Bool.false_eq_true, if_false]
    split
    · exact ⟨_, rfl, Or.inl rfl⟩
    · split
      · exact ⟨_, rfl, Or.inl rfl⟩
      · split
        · exact ⟨_, rfl, Or.inl rfl⟩
        · split
          · exact ⟨_, rfl, Or.inl rfl⟩
          · split
            · exact ⟨_, rfl, Or.inl rfl⟩
            · split
              · exact ⟨_, rfl, Or.inl rfl⟩
              · exact ⟨_, rfl, Or.inr ⟨_, by assumption⟩⟩
  · left
    refine ⟨by simpa using h, ?_⟩
    unfold run_tool
    rw [show name.contains '.' = false by simpa using h]
    exact ⟨_, rfl⟩

/-- Helper: the string-fields loop succeeds iff every listed field is
present as a string. -/
lemma checkStrFields_none_iff (d : Dict) :
    ∀ fs : List String,
      checkStrFields d fs = none ↔ (fs.all fun f => isStrField (jlookup d f)) = true := by
  intro fs
  induction fs with
  | nil => simp [checkStrFields]
  | cons f rest ih =>
    unfold checkStrFields
    cases h : jlookup d f with
    | none => simp [isStrField, h]
    | some v => cases v <;> simp [isStrField, h, ih]

/-- Helper: the presence-only loop succeeds iff every listed field is
present. -/
lemma checkFieldsPresent_none_iff (d : Dict) :
    ∀ fs : List String,
      checkFieldsPresent d fs = none ↔ (fs.all fun f => (jlookup d f).isSome) = true := by
  intro fs
  induction fs with
  | nil => simp [checkFieldsPresent]
  | cons f rest ih =>
    unfold checkFieldsPresent
    cases h : jlookup d f with
    | none => simp [h]
    | some v => simp [h, ih]

/-- Helper: the checklist loop succeeds iff every listed checklist field is
present as a bool. -/
lemma checkBoolFields_none_iff (cl : Dict) :
    ∀ fs : List String,
      checkBoolFields cl fs = none ↔ (fs.all fun f => isBoolField (jlookup cl f)) = true := by
  intro fs
  induction fs with
  | nil => simp [checkBoolFields]
  | cons f rest ih =>
    unfold checkBoolFields
    cases h : jlookup cl f with
    | none => simp [isBoolField, h]
    | some v => cases v <;> simp [isBoolField, h, ih]

lemma all_false_of_checkStrFields_some {d : Dict} {fs : List String} {e : String}
    (h : checkStrFields d fs = some e) :
    (fs.all fun f => isStrField (jlookup d f)) = false := by
  cases hv : fs.all fun f => isStrField (jlookup d f)
  · rfl
  · rw [(checkStrFields_none_iff d fs).mpr hv] at h
    simp at h

lemma all_false_of_checkFieldsPresent_some {d : Dict} {fs : List String} {e : String}
    (h : checkFieldsPresent d fs = some e) :
    (fs.all fun f => (jlookup d f).isSome) = false := by
  cases hv : fs.all fun f => (jlookup d f).isSome
  · rfl
  · rw [(checkFieldsPresent_none_iff d fs).mpr hv] at h
    simp at h

lemma all_false_of_checkBoolFields_some {cl : Dict} {fs : List String} {e : String}
    (h : checkBoolFields cl fs = some e) :
    (fs.all fun f => isBoolField (jlookup cl f)) = false := by
  cases hv : fs.all fun f => isBoolField (jlookup cl f)
  · rfl
  · rw [(checkBoolFields_none_iff cl fs).mpr hv] at h
    simp at h

/-- The DelegateTask validator accepts (returning the original record)
exactly the spec-conforming records. -/
lemma delegation_validate_ok_iff (d : Dict) :
    delegation_validate d = .ok d ↔ delegation_conforms_spec d = true := by
  unfold delegation_validate delegation_conforms_spec
  cases hp : checkStrFields d ["action", "agent", "caller_agent", "reason", "user_input"] with
  | some e => simp [all_false_of_checkStrFields_some hp]
  | none =>
    have hall := (checkStrFields_none_iff d _).mp hp
    cases ha : pyEqStrOpt (jlookup d "action") "DELEGATE_TASK" <;> simp [hall, ha]

lemma delegation_back_validate_ok_iff (d : Dict) :
    delegation_back_validate d = .ok d ↔ delegation_back_conforms_spec d = true := by
  unfold delegation_back_validate delegation_back_conforms_spec
  cases hp : checkStrFields d ["action", "return_to_agent", "return_from_agent", "reason", "success"] with
  | some e => simp [all_false_of_checkStrFields_some hp]
  | none =>
    have hall := (checkStrFields_none_iff d _).mp hp
    cases ha : pyEqStrOpt (jlookup d "action") "DELEGATE_BACK" <;>
      cases hs : successLiteralOK (jlookup d "success") <;> simp [hall, ha, hs]

lemma tools_validate_ok_iff (d : Dict) :
    tools_validate d = .ok d ↔ tools_conforms_spec d = true := by
  unfold tools_validate tools_conforms_spec
  cases hp : checkStrFields d ["action", "tool", "args"] with
  | some e => simp [all_false_of_checkStrFields_some hp]
  | none =>
    have hall := (checkStrFields_none_iff d _).mp hp
    cases ha : pyEqStrOpt (jlookup d "action") "USE_TOOL" <;> simp [hall, ha]

lemma tool_return_validate_ok_iff (d : Dict) :
    tool_return_validate d = .ok d ↔ tool_return_conforms_spec d = true := by
  unfold tool_return_validate tool_return_conforms_spec
  cases hp : checkStrFields d ["action", "tool", "result", "success"] with
  | some e => simp [all_false_of_checkStrFields_some hp]
  | none =>
    have hall := (checkStrFields_none_iff d _).mp hp
    cases ha : pyEqStrOpt (jlookup d "action") "TOOL_RETURN" <;>
      cases hs : successLiteralOK (jlookup d "success") <;> simp [hall, ha, hs]

lemma refinement_validate_ok_iff (d : Dict) :
    refinement_validate d = .ok d ↔ refinement_conforms_spec d = true := by
  unfold refinement_validate refinement_conforms_spec
  cases hp : checkFieldsPresent d ["action", "new_plan", "done", "score", "why", "checklist", "success"] with
  | some e => simp [all_false_of_checkFieldsPresent_some hp]
  | none =>
    have hall := (checkFieldsPresent_none_iff d _).mp hp
    cases ha : pyEqStrOpt (jlookup d "action") "REFINEMENT_RESPONSE"
    · simp [hall, ha]
    · cases hnp : isStrField (jlookup d "new_plan")
      · simp [hall, ha, hnp]
      · cases hdn : doneLiteralOK (jlookup d "done")
        · simp [hall, ha, hnp, hdn]
        · cases hsc : scoreOK (jlookup d "score")
          · simp [hall, ha, hnp, hdn, hsc]
          · cases hwy : isStrField (jlookup d "why")
            · simp [hall, ha, hnp, hdn, hsc, hwy]
            · cases hcl : jlookup d "checklist" with
              | none => simp [hall, ha, hnp, hdn, hsc, hwy, hcl]
              | some v =>
                cases v with
                | jobj cl =>
                  cases hbf : checkBoolFields cl ["objective", "inputs", "outputs", "constraints"] with
                  | some e =>
                    simp [hall, ha, hnp, hdn, hsc, hwy, hcl, hbf,
                      all_false_of_checkBoolFields_some hbf]
                  | none =>
                    have hbfall := (checkBoolFields_none_iff cl _).mp hbf
                    cases hsu : isBoolField (jlookup d "success") <;>
                      simp [hall, ha, hnp, hdn, hsc, hwy, hcl, hbf, hbfall, hsu]
                | jstr s => simp [hall, ha, hnp, hdn, hsc, hwy, hcl]
                | jint n => simp [hall, ha, hnp, hdn, hsc, hwy, hcl]
                | jbool b => simp [hall, ha, hnp, hdn, hsc, hwy, hcl]
                | jenum m => simp [hall, ha, hnp, hdn, hsc, hwy, hcl]
                | jnull => simp [hall, ha, hnp, hdn, hsc, hwy, hcl]

lemma delegation_validate_total (d : Dict) :
    delegation_validate d = .ok d ∨ ∃ e, delegation_validate d = .error e := by
  unfold delegation_validate
  repeat' split
  all_goals first
  | exact Or.inl rfl
  | exact Or.inr ⟨_, rfl⟩

lemma delegation_back_validate_total (d : Dict) :
    delegation_back_validate d = .ok d ∨ ∃ e, delegation_back_validate d = .error e := by
  unfold delegation_back_validate
  repeat' split
  all_goals first
  | exact Or.inl rfl
  | exact Or.inr ⟨_, rfl⟩

lemma tools_validate_total (d : Dict) :
    tools_validate d = .ok d ∨ ∃ e, tools_validate d = .error e := by
  unfold tools_validate
  repeat' split
  all_goals first
  | exact Or.inl rfl
  | exact Or.inr ⟨_, rfl⟩

lemma tool_return_validate_total (d : Dict) :
    tool_return_validate d = .ok d ∨ ∃ e, tool_return_validate d = .error e := by
  unfold tool_return_validate
  repeat' split
  all_goals first
  | exact Or.inl rfl
  | exact Or.inr ⟨_, rfl⟩

lemma refinement_validate_total (d : Dict) :
    refinement_validate d = .ok d ∨ ∃ e, refinement_validate d = .error e := by
  unfold refinement_validate
  repeat' split
  all_goals first
  | exact Or.inl rfl
  | exact Or.inr ⟨_, rfl⟩

/-- Helper: package an accept-iff-conform equivalence and totality into the
two directions of the round-trip property. -/
lemma validate_spec_pair {val : Dict → Except String Dict} {conf : Dict → Bool}
    (d : Dict) (hiff : val d = .ok d ↔ conf d = true)
    (htot : val d = .ok d ∨ ∃ e, val d = .error e) :
    (conf d = true → val d = .ok d) ∧
    (conf d = false → ∃ e, val d = .error e) := by
  refine ⟨hiff.mpr, fun h => htot.resolve_left fun hok => ?_⟩
  rw [hiff.mp hok] at h
  cases h

/-- C7: for every structured action kind, constructing the action object
from a record satisfying its required-field/type contract succeeds and
stores the record unchanged (`_validate` returns the input dict itself, so
every field property reads back the original value); constructing from a
record missing a required field or violating a field constraint
(`success ∈ {"True","False"}`, `done ∈ {"yes","no"}`, integer score in
0–100, boolean checklist values) raises `InvalidTaskStructureError`
instead of applying a silent default. -/
theorem C7_protocol_round_trip :
    (∀ d : Dict,
      (delegation_conforms_spec d = true → delegation_validate d = .ok d) ∧
      (delegation_conforms_spec d = false → ∃ e, delegation_validate d = .error e)) ∧
    (∀ d : Dict,
      (delegation_back_conforms_spec d = true → delegation_back_validate d = .ok d) ∧
      (delegation_back_conforms_spec d = false → ∃ e, delegation_back_validate d = .error e)) ∧
    (∀ d : Dict,
      (tools_conforms_spec d = true → tools_validate d = .ok d) ∧
      (tools_conforms_spec d = false → ∃ e, tools_validate d = .error e)) ∧
    (∀ d : Dict,
      (tool_return_conforms_spec d = true → tool_return_validate d = .ok d) ∧
      (tool_return_conforms_spec d = false → ∃ e, tool_return_validate d = .error e)) ∧
    (∀ d : Dict,
      (refinement_conforms_spec d = true → refinement_validate d = .ok d) ∧
      (refinement_conforms_spec d = false → ∃ e, refinement_validate d = .error e)) :=
  ⟨fun d => validate_spec_pair d (delegation_validate_ok_iff d) (delegation_validate_total d),
   fun d => validate_spec_pair d (delegation_back_validate_ok_iff d) (delegation_back_validate_total d),
   fun d => validate_spec_pair d (tools_validate_ok_iff d) (tools_validate_total d),
   fun d => validate_spec_pair d (tool_return_validate_ok_iff d) (tool_return_validate_total d),
   fun d => validate_spec_pair d (refinement_validate_ok_iff d) (refinement_validate_total d)⟩

/-- Witness for C7: a conforming REFINEMENT_RESPONSE record round-trips,
and the empty record (missing every required field) is rejected. -/
theorem C7_protocol_round_trip_witness :
    refinement_validate exRefinementResp = .ok exRefinementResp ∧
    (∃ e, refinement_validate [] = .error e) :=
  ⟨(C7_protocol_round_trip.2.2.2.2 exRefinementResp).1 rfl,
   (C7_protocol_round_trip.2.2.2.2 []).2 rfl⟩
